import Mathlib

/-!
Shallow embedding of the core avionics/system simulation of the
flightgpt repository (module ifrsim.py, plus the MCDU route interface
of mcdu.py) and proofs of the behavioural claims about it.

Conventions of the embedding:
* Python floats are modelled as rationals; every comparison and
  arithmetic operation of the source is mirrored literally.
* Randomised draws of the source (random.random() < chance * dt) are
  threaded through as explicit boolean parameters giving the outcome of
  the draw, so every probabilistic branch is covered.
* FDM property reads appear as explicit inputs, FDM property writes are
  kept as fields of the state where a claim observes them.
* Trigonometric helpers (the haversine bearing/distance computation)
  are not representable as executable rational functions; functions that
  call them take the helper itself as a parameter, so the theorems hold
  for every possible bearing/distance function.
-/

namespace IfrSim

/-- PIDController of ifrsim.py: kp/ki/kd gains with running integral and
previous error. -/
structure PIDController where
  kp : ℚ
  ki : ℚ
  kd : ℚ
  integral : ℚ
  prev_error : ℚ
deriving Repr, DecidableEq

namespace PIDController

/-- PIDController.update: integral accumulates error*dt, derivative is
(error - prev_error)/dt when dt is positive and 0 otherwise, prev_error
is stored, and the returned output is kp*error + ki*integral +
kd*derivative. Returns (output, new state). -/
def update (s : PIDController) (error dt : ℚ) : ℚ × PIDController :=
  let integral := s.integral + error * dt
  let derivative := if dt > 0 then (error - s.prev_error) / dt else 0
  let s1 : PIDController := { s with integral := integral, prev_error := error }
  (s.kp * error + s.ki * integral + s.kd * derivative, s1)

end PIDController

/-- OilSystem state of ifrsim.py (pressure, temperature, pump flag and
configuration rates). -/
structure OilSystem where
  pressure : ℚ
  temperature : ℚ
  pump_rate : ℚ
  leak_rate : ℚ
  heat_rate : ℚ
  cool_rate : ℚ
  failure_chance : ℚ
  pump_on : Bool
deriving Repr, DecidableEq

/-- Engine state of ifrsim.py: throttle dynamics, EGT, oil, fire and the
sticky failed flag. The FDM handle is not part of the per-engine state;
the set-running property writes are modelled where the engine start
claim observes them. -/
structure Engine where
  index : ℕ
  spool_rate : ℚ
  failure_chance : ℚ
  throttle : ℚ
  target : ℚ
  efficiency : ℚ
  extra_fuel_factor : ℚ
  failed : Bool
  oil : OilSystem
  oil_timer : ℚ
  fire : Bool
  fire_timer : ℚ
  fire_chance : ℚ
  egt : ℚ
  egt_timer : ℚ
  egt_rise_rate : ℚ
  egt_cool_rate : ℚ
deriving Repr, DecidableEq

namespace Engine

/-- Engine.restart of ifrsim.py: clear the failure flag, touch nothing
else. -/
def restart (e : Engine) : Engine :=
  { e with failed := false }

end Engine

/-- The crossfeed block of FuelSystem.update (ifrsim.py lines 523-541),
as a function of the configuration (balance_threshold_lbs,
crossfeed_rate_pph), the current crossfeed_on flag, the two tank
quantities read from the FDM and the timestep. Returns the new
(left, right, crossfeed_on). -/
def FuelSystem.crossfeed (balance_threshold_lbs crossfeed_rate_pph : ℚ)
    (crossfeed_on : Bool) (left right dt : ℚ) : ℚ × ℚ × Bool :=
  let diff := left - right
  let on1 : Bool :=
    if !crossfeed_on && |diff| > balance_threshold_lbs then true else crossfeed_on
  if on1 then
    let xfeed_amt := min |diff| (crossfeed_rate_pph / 3600 * dt)
    let lr : ℚ × ℚ :=
      if diff > 0 then (left - xfeed_amt, right + xfeed_amt)
      else (left + xfeed_amt, right - xfeed_amt)
    let on2 : Bool :=
      if |lr.1 - lr.2| < balance_threshold_lbs * (2 / 10) then false else on1
    (lr.1, lr.2, on2)
  else
    (left, right, on1)

/-- Iterated crossfeed with no engine burn: apply the crossfeed block of
FuelSystem.update n times to the (left, right, crossfeed_on) state. -/
def FuelSystem.crossfeedRun (th rate dt : ℚ) :
    ℕ → ℚ × ℚ × Bool → ℚ × ℚ × Bool
  | 0, s => s
  | n + 1, s =>
    FuelSystem.crossfeedRun th rate dt n
      (FuelSystem.crossfeed th rate s.2.2 s.1 s.2.1 dt)

/-- MasterCautionSystem of ifrsim.py: a name-keyed boolean registry,
modelled as an insertion-ordered association list exactly like a Python
dict restricted to these operations. -/
structure MasterCautionSystem where
  warnings : List (String × Bool)
deriving Repr, DecidableEq

namespace MasterCautionSystem

/-- The state of a freshly constructed MasterCautionSystem: empty
registry. -/
def init : MasterCautionSystem := ⟨[]⟩

/-- MasterCautionSystem.set_warning: dict assignment, replacing the
binding when the name is present and appending it otherwise. -/
def set_warning (mc : MasterCautionSystem) (name : String) (state : Bool) :
    MasterCautionSystem :=
  if mc.warnings.any (fun p => p.1 = name) then
    ⟨mc.warnings.map (fun p => if p.1 = name then (p.1, state) else p)⟩
  else
    ⟨mc.warnings ++ [(name, state)]⟩

/-- MasterCautionSystem.is_active: true iff any registered warning is
true. -/
def is_active (mc : MasterCautionSystem) : Bool :=
  mc.warnings.any (fun p => p.2)

end MasterCautionSystem

/-- The master-caution aggregation of one A320IFRSim.step tick
(ifrsim.py lines 1562-1567): the tick computes the five warning values
stall, gpws, overspeed, fire and tcas_alert, registers stall, gpws,
overspeed and fire with the master caution registry, and returns
is_active. The tcas_alert value computed by the tick is never
registered. Returns (caution, new registry state). -/
def A320IFRSim.tickMasterCaution (mc : MasterCautionSystem)
    (stall gpws overspeed fire tcas_alert : Bool) :
    Bool × MasterCautionSystem :=
  let mc := mc.set_warning "stall" stall
  let mc := mc.set_warning "gpws" gpws
  let mc := mc.set_warning "overspeed" overspeed
  let mc := mc.set_warning "fire" fire
  (mc.is_active, mc)

/-- Iterate tickMasterCaution over a list of per-tick warning values
(stall, gpws, overspeed, fire, tcas_alert), returning the final
registry state. -/
def A320IFRSim.runTicksMasterCaution :
    List (Bool × Bool × Bool × Bool × Bool) → MasterCautionSystem →
    MasterCautionSystem
  | [], mc => mc
  | (s, g, o, f, t) :: rest, mc =>
    A320IFRSim.runTicksMasterCaution rest
      (A320IFRSim.tickMasterCaution mc s g o f t).2

/-- HydraulicSystem of ifrsim.py. The randomised pump-failure draw of
update is threaded through as the explicit parameter pump_fails (the
outcome of random.random() < failure_chance * dt). -/
structure HydraulicSystem where
  pressure : ℚ
  pump_rate : ℚ
  usage_factor : ℚ
  leak_rate : ℚ
  failure_chance : ℚ
  pump_on : Bool
deriving Repr, DecidableEq

namespace HydraulicSystem

/-- HydraulicSystem.update: pump adds pump_rate*dt while on and powered
(unless the failure draw latches the pump off), leak plus demand drain
pressure, and the result is clamped to [0, 1]. Returns
(pressure, new state). -/
def update (h : HydraulicSystem) (demand dt : ℚ) (pump_power : Bool)
    (pump_fails : Bool) : ℚ × HydraulicSystem :=
  let h :=
    if h.pump_on && pump_power then
      if pump_fails then { h with pump_on := false }
      else { h with pressure := h.pressure + h.pump_rate * dt }
    else h
  let p := h.pressure - (h.leak_rate + demand * h.usage_factor) * dt
  let p := max 0 (min p 1)
  (p, { h with pressure := p })

end HydraulicSystem

/-- SystemManager of ifrsim.py: slow actuation of flap, gear and
speedbrake through a hydraulic system, with permanent overspeed damage
flags. The FDM command writes mirror the flap/gear/speedbrake fields
and are not duplicated. -/
structure SystemManager where
  flap_rate : ℚ
  gear_rate : ℚ
  speedbrake_rate : ℚ
  flap : ℚ
  gear : ℚ
  speedbrake : ℚ
  target_flap : ℚ
  target_gear : ℚ
  target_speedbrake : ℚ
  hydraulics : HydraulicSystem
  flap_overspeed_kt : ℚ
  gear_overspeed_kt : ℚ
  flap_operable : Bool
  gear_operable : Bool
deriving Repr, DecidableEq

namespace SystemManager

/-- SystemManager.set_targets: clamp each given target to [0, 1],
leaving absent ones unchanged. -/
def set_targets (m : SystemManager) (gear flap speedbrake : Option ℚ) :
    SystemManager :=
  let m := match gear with
    | some g => { m with target_gear := max 0 (min g 1) }
    | none => m
  let m := match flap with
    | some f => { m with target_flap := max 0 (min f 1) }
    | none => m
  match speedbrake with
    | some s => { m with target_speedbrake := max 0 (min s 1) }
    | none => m

/-- SystemManager.update: compute actuation demand, update hydraulics,
then move flap and gear toward their targets rate-limited by
rate*dt*pressure — unless the surface is inoperable, or it is commanded
to move above its overspeed limit, which latches it inoperable.
Speedbrake always moves. Returns (new state, pressure, demand). -/
def update (m : SystemManager) (dt : ℚ) (pump_power : Bool) (speed_kt : ℚ)
    (pump_fails : Bool) : SystemManager × ℚ × ℚ :=
  let d_flap := m.target_flap - m.flap
  let d_gear := m.target_gear - m.gear
  let d_speedbrake := m.target_speedbrake - m.speedbrake
  let demand := |d_flap| + |d_gear| + |d_speedbrake|
  let hres := m.hydraulics.update demand dt pump_power pump_fails
  let pressure := hres.1
  let m := { m with hydraulics := hres.2 }
  let m :=
    if m.flap_operable then
      if speed_kt > m.flap_overspeed_kt && |d_flap| > 0 then
        { m with flap_operable := false }
      else
        let max_df := m.flap_rate * dt * pressure
        let d := max (min d_flap max_df) (-max_df)
        { m with flap := m.flap + d }
    else m
  let m :=
    if m.gear_operable then
      if speed_kt > m.gear_overspeed_kt && |d_gear| > 0 then
        { m with gear_operable := false }
      else
        let max_dg := m.gear_rate * dt * pressure
        let d := max (min d_gear max_dg) (-max_dg)
        { m with gear := m.gear + d }
    else m
  let max_ds := m.speedbrake_rate * dt * pressure
  let d := max (min d_speedbrake max_ds) (-max_ds)
  let m := { m with speedbrake := m.speedbrake + d }
  (m, pressure, demand)

end SystemManager

/-- A command addressed to the SystemManager: either a set_targets call
or an update call (with the external inputs of that tick). -/
inductive SMCmd where
  | setTargets (gear flap speedbrake : Option ℚ)
  | tick (dt : ℚ) (pump_power : Bool) (speed_kt : ℚ) (pump_fails : Bool)
deriving Repr, DecidableEq

/-- Run a sequence of SystemManager commands. -/
def SystemManager.run (m : SystemManager) : List SMCmd → SystemManager
  | [] => m
  | SMCmd.setTargets g f s :: rest =>
    (m.set_targets g f s).run rest
  | SMCmd.tick dt pp sp pf :: rest =>
    ((m.update dt pp sp pf).1).run rest

/-- BrakeSystem of ifrsim.py (the fields touched by set_command and the
autobrake; heat dynamics are not needed by any claim but kept for
faithfulness of the state). -/
structure BrakeSystem where
  heat : ℚ
  heat_rate : ℚ
  cool_rate : ℚ
  command : ℚ
  parking_brake : Bool
deriving Repr, DecidableEq

/-- BrakeSystem.set_command: clamp the commanded braking to [0, 1]. -/
def BrakeSystem.set_command (b : BrakeSystem) (cmd : ℚ) : BrakeSystem :=
  { b with command := max 0 (min cmd 1) }

/-- AutobrakeSystem.LEVELS of ifrsim.py: the level dictionary
off 0.0, low 0.3, med 0.6, high 1.0; none for unknown keys. -/
def AutobrakeSystem.LEVELS : String → Option ℚ
  | "off" => some 0
  | "low" => some (3 / 10)
  | "med" => some (6 / 10)
  | "high" => some 1
  | _ => none

/-- AutobrakeSystem of ifrsim.py: selectable-level autobrake over a
BrakeSystem. -/
structure AutobrakeSystem where
  brakes : BrakeSystem
  level : String
  arm_speed : ℚ
  disarm_speed : ℚ
  throttle_threshold : ℚ
  active : Bool
deriving Repr, DecidableEq

namespace AutobrakeSystem

/-- AutobrakeSystem.set_level: accept only levels in LEVELS, storing
the level and dropping active; an unknown level leaves the state
untouched (the Python body is a guarded assignment with no else branch,
no raise and no return value). -/
def set_level (a : AutobrakeSystem) (level : String) : AutobrakeSystem :=
  if (LEVELS level).isSome then { a with level := level, active := false }
  else a

/-- AutobrakeSystem.update: level off forces inactive; otherwise arm on
ground above arm_speed with throttle below the threshold, then disarm
when airborne, throttle at/above the threshold, or speed below
disarm_speed; while active, command the brakes to the level constant.
Returns (active, new state). -/
def update (a : AutobrakeSystem) (on_ground : Bool) (speed_kt throttle : ℚ) :
    Bool × AutobrakeSystem :=
  let a :=
    if a.level = "off" then { a with active := false }
    else
      let a :=
        if on_ground && speed_kt > a.arm_speed &&
            throttle < a.throttle_threshold then
          { a with active := true }
        else a
      if !on_ground || throttle ≥ a.throttle_threshold ||
          speed_kt < a.disarm_speed then
        { a with active := false }
      else a
  let a :=
    if a.active then
      { a with brakes := a.brakes.set_command ((LEVELS a.level).getD 0) }
    else a
  (a.active, a)

end AutobrakeSystem

/-- A waypoint of NavigationSystem: latitude, longitude and an optional
altitude constraint. -/
structure Waypoint where
  lat : ℚ
  lon : ℚ
  alt : Option ℚ
deriving Repr, DecidableEq

/-- NavigationSystem of ifrsim.py: an ordered route with a current
index. -/
structure NavigationSystem where
  waypoints : List Waypoint
  index : ℕ
deriving Repr, DecidableEq

namespace NavigationSystem

/-- NavigationSystem.update, parameterised by the bearing/distance
helper bd (the haversine computation of _bearing_distance, which is
transcendental; the theorems hold for every such helper). Arguments of
bd are current lat, current lon, target lat, target lon; it returns
(bearing, distance in nm). Returns the new state and, for a non-empty
route with a valid index, (bearing, distance, target altitude);
otherwise none, state unchanged. -/
def update (bd : ℚ → ℚ → ℚ → ℚ → ℚ × ℚ) (nav : NavigationSystem)
    (lat lon : ℚ) : NavigationSystem × Option (ℚ × ℚ × Option ℚ) :=
  if nav.waypoints.isEmpty || nav.waypoints.length ≤ nav.index then
    (nav, none)
  else
    let wp := nav.waypoints.getD nav.index ⟨0, 0, none⟩
    let bd1 := bd lat lon wp.lat wp.lon
    let navwp : NavigationSystem × Waypoint :=
      if bd1.2 < 3 / 10 ∧ nav.index < nav.waypoints.length - 1 then
        let nav1 : NavigationSystem := { nav with index := nav.index + 1 }
        (nav1, nav1.waypoints.getD nav1.index ⟨0, 0, none⟩)
      else (nav, wp)
    let bd2 := bd lat lon navwp.2.lat navwp.2.lon
    (navwp.1, some (bd2.1, bd2.2, navwp.2.alt))

end NavigationSystem

/-- FlightManagementSystem of a320_systems.py: a thin holder of the
NavigationSystem; its waypoints property is the route of the held
NavigationSystem. -/
structure FlightManagementSystem where
  nav : NavigationSystem
deriving Repr, DecidableEq

/-- MCDU.direct_to of mcdu.py: reject an index outside
[0, len(waypoints)) by raising IndexError with the message
"Waypoint index out of range" before any mutation; otherwise set the
route index. The raised exception is modelled as the error branch of
Except. The index argument is an integer (negative values are likewise
rejected). -/
def MCDU.direct_to (fms : FlightManagementSystem) (index : ℤ) :
    Except String FlightManagementSystem :=
  if 0 ≤ index ∧ index < fms.nav.waypoints.length then
    Except.ok ⟨{ fms.nav with index := index.toNat }⟩
  else
    Except.error "Waypoint index out of range"

/-- The state a caller observes after MCDU.direct_to: the updated FMS
when the call succeeds, the original FMS when the call raised. -/
def MCDU.direct_to_observed (fms : FlightManagementSystem) (index : ℤ) :
    FlightManagementSystem :=
  match MCDU.direct_to fms index with
  | Except.ok fms1 => fms1
  | Except.error _ => fms

/-- RamAirTurbine of ifrsim.py: deploy/retract thresholds against the
battery charge and a trickle charge rate while deployed. -/
structure RamAirTurbine where
  deploy_threshold : ℚ
  retract_threshold : ℚ
  charge_rate : ℚ
  deployed : Bool
deriving Repr, DecidableEq

/-- RamAirTurbine.update: deploy when charge is below the deploy
threshold with no generator, retract when charge recovers above the
retract threshold or the generator returns, and while deployed add the
trickle charge capped at 1. The electrics charge is passed in and the
possibly recharged value returned, mirroring the in-place mutation of
electrics.charge. -/
def RamAirTurbine.update (r : RamAirTurbine) (charge : ℚ)
    (generator_available : Bool) (dt : ℚ) : ℚ × RamAirTurbine :=
  let r :=
    if !r.deployed && charge < r.deploy_threshold && !generator_available then
      { r with deployed := true }
    else r
  let r :=
    if r.deployed && (charge > r.retract_threshold || generator_available) then
      { r with deployed := false }
    else r
  let charge := if r.deployed then min 1 (charge + r.charge_rate * dt) else charge
  (charge, r)

/-- ElectricSystem of ifrsim.py: battery charge fed by generator or
(after a start delay) APU, drained by demand, with the auto APU
start/stop policy and an optional RAT. -/
structure ElectricSystem where
  charge : ℚ
  charge_rate : ℚ
  discharge_rate : ℚ
  apu_charge_rate : ℚ
  apu_start_time : ℚ
  apu_running : Bool
  apu_timer : ℚ
  generator_failure_chance : ℚ
  generator_failed : Bool
  rat : Option RamAirTurbine
deriving Repr, DecidableEq

namespace ElectricSystem

/-- ElectricSystem.start_apu. -/
def start_apu (e : ElectricSystem) : ElectricSystem :=
  if !e.apu_running then { e with apu_running := true, apu_timer := 0 }
  else e

/-- ElectricSystem.stop_apu. -/
def stop_apu (e : ElectricSystem) : ElectricSystem :=
  { e with apu_running := false }

/-- The feed stage of ElectricSystem.update (ifrsim.py lines 624-633):
the generator charges unless the failure draw latches it failed,
otherwise a running APU charges once its start delay has elapsed. -/
def feed (e : ElectricSystem) (generator_on : Bool) (dt : ℚ)
    (gen_fails : Bool) : ElectricSystem :=
  if generator_on && !e.generator_failed then
    if gen_fails then { e with generator_failed := true }
    else { e with charge := e.charge + e.charge_rate * dt }
  else if e.apu_running then
    let e := { e with apu_timer := e.apu_timer + dt }
    if e.apu_timer ≥ e.apu_start_time then
      { e with charge := e.charge + e.apu_charge_rate * dt }
    else e
  else e

/-- The drain-and-clamp stage of ElectricSystem.update (ifrsim.py lines
635-636): demand drains the charge, then the charge is clamped to
[0, 1]. -/
def drain (e : ElectricSystem) (demand dt : ℚ) : ElectricSystem :=
  let e := { e with charge := e.charge - demand * e.discharge_rate * dt }
  { e with charge := max 0 (min e.charge 1) }

/-- The automatic APU policy of ElectricSystem.update (ifrsim.py lines
641-645): start the APU on low charge with no generator, stop it once
recovered with the generator available. -/
def apu_policy (e : ElectricSystem) (gen_available : Bool) : ElectricSystem :=
  let e := if e.charge < 3 / 10 && !gen_available then e.start_apu else e
  if e.charge > 95 / 100 && e.apu_running && gen_available then e.stop_apu
  else e

/-- The RAT stage of ElectricSystem.update (ifrsim.py lines 647-648):
when a RAT is fitted, it may deploy and trickle-charge the battery. -/
def rat_stage (e : ElectricSystem) (gen_available : Bool) (dt : ℚ) :
    ElectricSystem :=
  match e.rat with
  | some r =>
    let cr := r.update e.charge gen_available dt
    { e with charge := cr.1, rat := some cr.2 }
  | none => e

/-- ElectricSystem.update with the randomised generator-failure draw
threaded as gen_fails. Charge is fed by the generator or the APU,
drained by demand, clamped to [0, 1]; then the APU auto start/stop
policy runs and the RAT (when fitted) may add its trickle charge.
gen_available is computed after the feed stage, exactly where line 641
of the source evaluates it. Returns (charge, new state). -/
def update (e : ElectricSystem) (generator_on : Bool) (demand dt : ℚ)
    (gen_fails : Bool) : ℚ × ElectricSystem :=
  let e := e.feed generator_on dt gen_fails
  let e := e.drain demand dt
  let gen_available := generator_on && !e.generator_failed
  let e := e.apu_policy gen_available
  let e := e.rat_stage gen_available dt
  (e.charge, e)

end ElectricSystem

/-- The engine start state machine states of EngineStartSystem. -/
inductive StartState where
  | stopped
  | starting
  | running
deriving Repr, DecidableEq

/-- EngineStartSystem of ifrsim.py together with the engine fleet it
acts on and the per-engine FDM set-running properties it writes (one
entry per engine, index-aligned with the fleet). -/
structure EngineStartSystem where
  start_time : ℚ
  timer : ℚ
  state : StartState
  engines : List Engine
  fdm_running : List ℕ
deriving Repr, DecidableEq

namespace EngineStartSystem

/-- EngineStartSystem.request_start: only from stopped — move to
starting, reset the timer, and write 0 to every engine set-running
property; from any other state do nothing at all. -/
def request_start (s : EngineStartSystem) : EngineStartSystem :=
  match s.state with
  | StartState.stopped =>
    { s with state := StartState.starting, timer := 0,
             fdm_running := s.engines.map (fun _ => 0) }
  | _ => s

/-- EngineStartSystem.update with the bleed pressure read threaded as a
parameter: while starting, accumulate the timer only when bleed
pressure exceeds 0.3; once the timer reaches start_time, write 1 to
every engine set-running property, restart every engine of the fleet
and move to running. Returns (state == running, new state). -/
def update (s : EngineStartSystem) (dt bleed_pressure : ℚ) :
    Bool × EngineStartSystem :=
  let s :=
    if s.state = StartState.starting then
      let s :=
        if bleed_pressure > 3 / 10 then { s with timer := s.timer + dt } else s
      if s.timer ≥ s.start_time then
        { s with fdm_running := s.engines.map (fun _ => 1),
                 engines := s.engines.map Engine.restart,
                 state := StartState.running }
      else s
    else s
  (s.state = StartState.running, s)

end EngineStartSystem

/-- A concrete non-failed engine used to witness C9. -/
def engineA : Engine :=
  { index := 0, spool_rate := 2 / 10, failure_chance := 0,
    throttle := 1 / 2, target := 3 / 4, efficiency := 1,
    extra_fuel_factor := 0, failed := false,
    oil := { pressure := 1, temperature := 2 / 10, pump_rate := 1 / 2,
             leak_rate := 1 / 50, heat_rate := 3 / 10, cool_rate := 1 / 10,
             failure_chance := 0, pump_on := true },
    oil_timer := 0, fire := false, fire_timer := 0, fire_chance := 0,
    egt := 2 / 5, egt_timer := 0, egt_rise_rate := 1 / 2,
    egt_cool_rate := 1 / 5 }

/-- A concrete failed engine awaiting restart. -/
def engineB : Engine :=
  { engineA with failed := true, throttle := 0 }

/-- A concrete engine start system in the starting state with the timer
already at the configured start time. -/
def startA : EngineStartSystem :=
  { start_time := 8, timer := 8, state := StartState.starting,
    engines := [engineB], fdm_running := [0] }

/-- A concrete autobrake state at level med used to witness C5. -/
def autobrakeA : AutobrakeSystem :=
  { brakes := { heat := 0, heat_rate := 3 / 10, cool_rate := 1 / 20,
                command := 0, parking_brake := false },
    level := "med", arm_speed := 70, disarm_speed := 20,
    throttle_threshold := 3 / 10, active := false }

/-- A concrete autobrake state with level low and autobrake inactive. -/
def autobrakeB : AutobrakeSystem :=
  { brakes := { heat := 0, heat_rate := 3 / 10, cool_rate := 1 / 20,
                command := 0, parking_brake := false },
    level := "low", arm_speed := 70, disarm_speed := 20,
    throttle_threshold := 3 / 10, active := false }

/-- A concrete two-waypoint route. -/
def navA : NavigationSystem :=
  ⟨[⟨37, -122, none⟩, ⟨38, -121, some 5000⟩], 0⟩

/-- A concrete FMS over navA. -/
def fmsA : FlightManagementSystem := ⟨navA⟩

/-- A concrete system manager whose flap and gear have both been
damaged by overspeed actuation. -/
def smDamaged : SystemManager :=
  { flap_rate := 1 / 2, gear_rate := 1 / 2, speedbrake_rate := 1 / 2,
    flap := 0, gear := 1, speedbrake := 0,
    target_flap := 1, target_gear := 0, target_speedbrake := 0,
    hydraulics := { pressure := 1, pump_rate := 3 / 10, usage_factor := 1 / 2,
                    leak_rate := 1 / 100, failure_chance := 0, pump_on := true },
    flap_overspeed_kt := 220, gear_overspeed_kt := 250,
    flap_operable := false, gear_operable := false }

/-- A concrete hydraulic system used to witness C10. -/
def hydA : HydraulicSystem :=
  { pressure := 1, pump_rate := 3 / 10, usage_factor := 1 / 2,
    leak_rate := 1 / 100, failure_chance := 0, pump_on := true }

/-- A concrete RAT with the constructor-default thresholds and rate. -/
def ratA : RamAirTurbine :=
  { deploy_threshold := 1 / 10, retract_threshold := 3 / 5,
    charge_rate := 1 / 20, deployed := false }

/-- A concrete electric system fitted with ratA. -/
def elecA : ElectricSystem :=
  { charge := 1, charge_rate := 1 / 5, discharge_rate := 1 / 20,
    apu_charge_rate := 1 / 10, apu_start_time := 5, apu_running := false,
    apu_timer := 0, generator_failure_chance := 0, generator_failed := false,
    rat := some ratA }

namespace AutobrakeSystem

/-- Structural characterisation of AutobrakeSystem.update: the returned
flag equals the arm/disarm decision, and the state keeps every field
except active and (while active) the brake command. -/
lemma update_cases (a : AutobrakeSystem) (g : Bool) (sp t : ℚ) :
    a.update g sp t =
      ((if a.level = "off" then false
        else if !g || t ≥ a.throttle_threshold || sp < a.disarm_speed then false
        else if g && sp > a.arm_speed && t < a.throttle_threshold then true
        else a.active),
       { a with
          active :=
            (if a.level = "off" then false
             else if !g || t ≥ a.throttle_threshold || sp < a.disarm_speed then
               false
             else if g && sp > a.arm_speed && t < a.throttle_threshold then true
             else a.active),
          brakes :=
            (if (if a.level = "off" then false
                 else if !g || t ≥ a.throttle_threshold || sp < a.disarm_speed
                   then false
                 else if g && sp > a.arm_speed && t < a.throttle_threshold then
                   true
                 else a.active) then
               a.brakes.set_command ((LEVELS a.level).getD 0)
             else a.brakes) }) := by
  cases a with
  | mk b l as ds tt act =>
    simp only [update]
    split_ifs <;> simp_all

end AutobrakeSystem

/-- The clamp max 0 (min x 1) is nonnegative. -/
lemma clamp01_nonneg (x : ℚ) : 0 ≤ max 0 (min x 1) := le_max_left 0 _

/-- The clamp max 0 (min x 1) is at most one. -/
lemma clamp01_le_one (x : ℚ) : max 0 (min x 1) ≤ 1 :=
  max_le (by norm_num) (min_le_right x 1)

/-- The feed stage does not touch the RAT. -/
lemma feed_rat (e : ElectricSystem) (g : Bool) (dt : ℚ) (gf : Bool) :
    (e.feed g dt gf).rat = e.rat := by
  simp only [ElectricSystem.feed]
  split_ifs <;> rfl

/-- The drain stage does not touch the RAT. -/
lemma drain_rat (e : ElectricSystem) (demand dt : ℚ) :
    (e.drain demand dt).rat = e.rat := rfl

/-- The APU policy stage touches neither the charge nor the RAT. -/
lemma apu_policy_charge_rat (e : ElectricSystem) (ga : Bool) :
    (e.apu_policy ga).charge = e.charge ∧ (e.apu_policy ga).rat = e.rat := by
  simp only [ElectricSystem.apu_policy, ElectricSystem.start_apu,
    ElectricSystem.stop_apu]
  split_ifs <;> exact ⟨rfl, rfl⟩

/-- The RAT stage keeps the charge inside [0, 1] when it starts there
and the trickle rate is nonnegative. -/
lemma rat_stage_bounds (e : ElectricSystem) (ga : Bool) (dt : ℚ)
    (h0 : 0 ≤ e.charge) (h1 : e.charge ≤ 1) (hdt : 0 ≤ dt)
    (hrat : ∀ r, e.rat = some r → 0 ≤ r.charge_rate) :
    0 ≤ (e.rat_stage ga dt).charge ∧ (e.rat_stage ga dt).charge ≤ 1 := by
  cases hr : e.rat with
  | none => simpa [ElectricSystem.rat_stage, hr] using ⟨h0, h1⟩
  | some r =>
    have hcr := hrat r hr
    simp only [ElectricSystem.rat_stage, hr, RamAirTurbine.update]
    split_ifs <;>
      first
        | exact ⟨h0, h1⟩
        | exact ⟨le_min (by norm_num) (add_nonneg h0 (mul_nonneg hcr hdt)),
            min_le_left _ _⟩

/-- Running an empty command list does nothing. -/
lemma run_nil (m : SystemManager) : m.run [] = m := rfl

/-- Unfolding lemma for run on a set_targets command. -/
lemma run_cons_set (m : SystemManager) (g f sp : Option ℚ)
    (rest : List SMCmd) :
    m.run (SMCmd.setTargets g f sp :: rest) = (m.set_targets g f sp).run rest :=
  rfl

/-- Unfolding lemma for run on an update command. -/
lemma run_cons_tick (m : SystemManager) (dt : ℚ) (pp : Bool) (sp : ℚ)
    (pf : Bool) (rest : List SMCmd) :
    m.run (SMCmd.tick dt pp sp pf :: rest) =
      ((m.update dt pp sp pf).1).run rest :=
  rfl

/-- set_targets never touches the surface positions or the operability
flags. -/
lemma set_targets_preserves (m : SystemManager) (g f sp : Option ℚ) :
    (m.set_targets g f sp).flap = m.flap ∧
    (m.set_targets g f sp).flap_operable = m.flap_operable ∧
    (m.set_targets g f sp).gear = m.gear ∧
    (m.set_targets g f sp).gear_operable = m.gear_operable := by
  cases g <;> cases f <;> cases sp <;> simp [SystemManager.set_targets]

/-- A single update keeps a damaged surface damaged and frozen. -/
lemma update_preserves_damage (m : SystemManager) (dt : ℚ) (pp : Bool)
    (sp : ℚ) (pf : Bool) :
    (m.flap_operable = false →
      (m.update dt pp sp pf).1.flap_operable = false ∧
      (m.update dt pp sp pf).1.flap = m.flap) ∧
    (m.gear_operable = false →
      (m.update dt pp sp pf).1.gear_operable = false ∧
      (m.update dt pp sp pf).1.gear = m.gear) := by
  obtain ⟨fr, gr, sr, fl, ge, sb, tf, tg, ts, hy, fov, gov, fop, gop⟩ := m
  simp only [SystemManager.update]
  split_ifs <;> simp_all

/-- Any command sequence keeps a damaged surface damaged and frozen. -/
lemma run_preserves_damage (cmds : List SMCmd) : ∀ m : SystemManager,
    (m.flap_operable = false →
      (m.run cmds).flap_operable = false ∧ (m.run cmds).flap = m.flap) ∧
    (m.gear_operable = false →
      (m.run cmds).gear_operable = false ∧ (m.run cmds).gear = m.gear) := by
  induction cmds with
  | nil => exact fun m => ⟨fun h => ⟨h, rfl⟩, fun h => ⟨h, rfl⟩⟩
  | cons c rest ih =>
    intro m
    cases c with
    | setTargets g f sp =>
      have hp := set_targets_preserves m g f sp
      have hr := ih (m.set_targets g f sp)
      rw [run_cons_set]
      refine ⟨fun h => ?_, fun h => ?_⟩
      · obtain ⟨h1, h2⟩ := hr.1 (hp.2.1.trans h)
        exact ⟨h1, h2.trans hp.1⟩
      · obtain ⟨h1, h2⟩ := hr.2 (hp.2.2.2.trans h)
        exact ⟨h1, h2.trans hp.2.2.1⟩
    | tick dt pp sp pf =>
      have hp := update_preserves_damage m dt pp sp pf
      have hr := ih (m.update dt pp sp pf).1
      rw [run_cons_tick]
      refine ⟨fun h => ?_, fun h => ?_⟩
      · obtain ⟨h3, h4⟩ := hp.1 h
        obtain ⟨h1, h2⟩ := hr.1 h3
        exact ⟨h1, h2.trans h4⟩
      · obtain ⟨h3, h4⟩ := hp.2 h
        obtain ⟨h1, h2⟩ := hr.2 h3
        exact ⟨h1, h2.trans h4⟩

/-- One master-caution tick from the empty registry or from the
four-entry registry always yields the four-entry registry with the
current values, and the caution is the OR of the four registered
warnings. -/
lemma tick_shape (mc : MasterCautionSystem) (s g o f t : Bool)
    (h : mc = MasterCautionSystem.init ∨
      ∃ a b c d, mc =
        ⟨[("stall", a), ("gpws", b), ("overspeed", c), ("fire", d)]⟩) :
    (A320IFRSim.tickMasterCaution mc s g o f t).2 =
      ⟨[("stall", s), ("gpws", g), ("overspeed", o), ("fire", f)]⟩ ∧
    (A320IFRSim.tickMasterCaution mc s g o f t).1 = (s || g || o || f) := by
  rcases h with h | ⟨a, b, c, d, h⟩ <;> subst h <;>
    simp [A320IFRSim.tickMasterCaution, MasterCautionSystem.set_warning,
      MasterCautionSystem.is_active, MasterCautionSystem.init, Bool.or_assoc]

/-- Every registry state reachable from the initial one is either empty
or holds exactly the four registered warning names. -/
lemma runTicks_shape (ts : List (Bool × Bool × Bool × Bool × Bool)) :
    ∀ mc : MasterCautionSystem,
      (mc = MasterCautionSystem.init ∨
        ∃ a b c d, mc =
          ⟨[("stall", a), ("gpws", b), ("overspeed", c), ("fire", d)]⟩) →
      (A320IFRSim.runTicksMasterCaution ts mc = MasterCautionSystem.init ∨
        ∃ a b c d, A320IFRSim.runTicksMasterCaution ts mc =
          ⟨[("stall", a), ("gpws", b), ("overspeed", c), ("fire", d)]⟩) := by
  induction ts with
  | nil => exact fun mc h => h
  | cons hd rest ih =>
    rintro mc h
    obtain ⟨x1, x2, x3, x4, x5⟩ := hd
    have hs := tick_shape mc x1 x2 x3 x4 x5 h
    exact ih _ (Or.inr ⟨x1, x2, x3, x4, hs.1⟩)

/-- Claim C7: PIDController.update(error, dt) adds error*dt to the
stored integral, computes the derivative as (error - prev_error)/dt
when dt > 0 and 0 when dt ≤ 0, stores error as prev_error, and returns
exactly kp*error + ki*integral + kd*derivative, with no internal
clamping of the output and no change to the gains. -/
theorem C7_pid_update (s : PIDController) (error dt : ℚ) :
    (s.update error dt).1 =
      s.kp * error + s.ki * (s.integral + error * dt) +
        s.kd * (if 0 < dt then (error - s.prev_error) / dt else 0) ∧
    (s.update error dt).2 =
      { s with integral := s.integral + error * dt, prev_error := error } := by
  constructor <;> rfl

/-- Claim C9: Engine.restart() on a non-failed engine is a no-op on the
entire engine state; on a failed engine it clears failed and leaves
every other field (throttle, target, egt, fire, oil state, timers)
unchanged. -/
theorem C9_engine_restart (e : Engine) :
    (e.failed = false → e.restart = e) ∧
    e.restart.failed = false ∧
    e.restart.throttle = e.throttle ∧
    e.restart.target = e.target ∧
    e.restart.egt = e.egt ∧
    e.restart.egt_timer = e.egt_timer ∧
    e.restart.fire = e.fire ∧
    e.restart.fire_timer = e.fire_timer ∧
    e.restart.oil = e.oil ∧
    e.restart.oil_timer = e.oil_timer ∧
    e.restart.efficiency = e.efficiency ∧
    e.restart.extra_fuel_factor = e.extra_fuel_factor ∧
    e.restart.spool_rate = e.spool_rate ∧
    e.restart.index = e.index := by
  refine ⟨?_, rfl, rfl, rfl, rfl, rfl, rfl, rfl, rfl, rfl, rfl, rfl, rfl, rfl⟩
  intro h
  cases e
  simp_all [Engine.restart]

/-- Witness for C9: restart on the concrete non-failed engine engineA
is a no-op. -/
theorem C9_engine_restart_witness :
    engineA.failed = false ∧ engineA.restart = engineA :=
  ⟨rfl, (C9_engine_restart engineA).1 rfl⟩

/-- Claim C1: in every FuelSystem.update, crossfeed switches from off to
on only when the tank imbalance exceeds balance_threshold_lbs; while on,
min(|left-right|, crossfeed_rate_pph/3600*dt) is moved from the heavier
to the lighter tank; crossfeed switches off exactly when the
post-transfer imbalance is below 20 percent of the threshold; and from
an off state with imbalance at most the threshold, any number of
further burn-free updates leaves the state unchanged, so crossfeed
never re-engages without a new imbalance above the full threshold. -/
theorem C1_crossfeed_hysteresis (th rate : ℚ) (xon : Bool)
    (left right dt : ℚ) :
    (xon = false → ¬ (|left - right| > th) →
      FuelSystem.crossfeed th rate xon left right dt = (left, right, false)) ∧
    ((xon = true ∨ |left - right| > th) →
      (FuelSystem.crossfeed th rate xon left right dt).1 =
        (if left - right > 0 then
          left - min |left - right| (rate / 3600 * dt)
        else left + min |left - right| (rate / 3600 * dt)) ∧
      (FuelSystem.crossfeed th rate xon left right dt).2.1 =
        (if left - right > 0 then
          right + min |left - right| (rate / 3600 * dt)
        else right - min |left - right| (rate / 3600 * dt))) ∧
    ((xon = true ∨ |left - right| > th) →
      ((FuelSystem.crossfeed th rate xon left right dt).2.2 = false ↔
        |(FuelSystem.crossfeed th rate xon left right dt).1 -
          (FuelSystem.crossfeed th rate xon left right dt).2.1| <
          th * (2 / 10))) ∧
    (xon = false →
      (FuelSystem.crossfeed th rate xon left right dt).2.2 = true →
      |left - right| > th) ∧
    (∀ n : ℕ, xon = false → ¬ (|left - right| > th) →
      FuelSystem.crossfeedRun th rate dt n (left, right, false) =
        (left, right, false)) := by
  have hstay : ¬ (|left - right| > th) →
      FuelSystem.crossfeed th rate false left right dt =
        (left, right, false) := by
    intro hno
    simp [FuelSystem.crossfeed, hno]
  refine ⟨?_, ?_, ?_, ?_, ?_⟩
  · intro hx hno
    rw [hx]
    exact hstay hno
  · intro heff
    by_cases hx : xon = true
    · simp only [FuelSystem.crossfeed, hx]
      constructor <;> split_ifs <;> simp_all
    · have hth : |left - right| > th := by
        rcases heff with h | h
        · exact absurd h hx
        · exact h
      have hx0 : xon = false := by simpa using hx
      simp only [FuelSystem.crossfeed, hx0, hth]
      constructor <;> split_ifs <;> simp_all
  · intro heff
    by_cases hx : xon = true
    · simp only [FuelSystem.crossfeed, hx]
      split_ifs <;> simp_all
    · have hth : |left - right| > th := by
        rcases heff with h | h
        · exact absurd h hx
        · exact h
      have hx0 : xon = false := by simpa using hx
      simp only [FuelSystem.crossfeed, hx0, hth]
      split_ifs <;> simp_all
  · intro hx hon
    by_contra hth
    rw [hx, hstay hth] at hon
    simp at hon
  · intro n hx hno
    induction n with
    | zero => rfl
    | succ k ih =>
      show FuelSystem.crossfeedRun th rate dt k
          (FuelSystem.crossfeed th rate false left right dt) = _
      rw [hstay hno]
      exact ih

/-- Witness for C1: with threshold 1000 lbs and rate 1200 pph, a
balanced pair of tanks is untouched, and an engaged crossfeed at 100 lbs
imbalance disengages within the same update. -/
theorem C1_crossfeed_hysteresis_witness :
    FuelSystem.crossfeed 1000 1200 false 1400 1000 1 = (1400, 1000, false) ∧
    (FuelSystem.crossfeed 1000 1200 true 1100 1000 1).2.2 = false :=
  ⟨(C1_crossfeed_hysteresis 1000 1200 false 1400 1000 1).1 rfl
      (by norm_num),
    ((C1_crossfeed_hysteresis 1000 1200 true 1100 1000 1).2.2.1
        (Or.inl rfl)).mpr
      (by norm_num [FuelSystem.crossfeed, min_def, abs_lt])⟩

/-- Claim C2: request_start changes the machine only from stopped (any
call in starting or running is a complete no-op); while starting, the
timer accumulates dt exactly when bleed pressure exceeds 0.3, and the
machine reaches running iff that accumulated timer reaches start_time;
at that transition every engine of the fleet has its FDM set-running
property written to 1 and its failed flag cleared via restart; outside
starting, update changes nothing. -/
theorem C2_engine_start_gating (s : EngineStartSystem) (dt bleed : ℚ) :
    (s.state ≠ StartState.stopped → s.request_start = s) ∧
    ((s.update dt bleed).2.state = StartState.running ↔
      (s.state = StartState.running ∨
        (s.state = StartState.starting ∧
          s.start_time ≤ s.timer + (if bleed > 3 / 10 then dt else 0)))) ∧
    (s.state = StartState.starting →
      (s.update dt bleed).2.timer =
        s.timer + (if bleed > 3 / 10 then dt else 0)) ∧
    (s.state = StartState.starting →
      (s.update dt bleed).2.state = StartState.running →
      (s.update dt bleed).2.engines = s.engines.map Engine.restart ∧
      (∀ e, e ∈ (s.update dt bleed).2.engines → e.failed = false) ∧
      (s.update dt bleed).2.fdm_running = s.engines.map (fun _ => 1)) ∧
    (s.state ≠ StartState.starting → (s.update dt bleed).2 = s) := by
  obtain ⟨st, tm, sst, eng, fr⟩ := s
  cases sst with
  | stopped =>
    refine ⟨fun hs => absurd rfl hs, ?_, ?_, ?_, ?_⟩ <;>
      simp [EngineStartSystem.update]
  | running =>
    refine ⟨fun _ => rfl, ?_, ?_, ?_, ?_⟩ <;>
      simp [EngineStartSystem.update]
  | starting =>
    refine ⟨fun _ => rfl, ?_, ?_, ?_, ?_⟩
    · simp only [EngineStartSystem.update]
      split_ifs <;> simp_all
    · intro _
      simp only [EngineStartSystem.update]
      split_ifs <;> simp_all
    · intro _ hrun
      simp only [EngineStartSystem.update] at hrun ⊢
      split_ifs at hrun ⊢ <;> simp_all [List.mem_map, Engine.restart]
    · intro hs
      exact absurd rfl hs

/-- Witness for C2: a starting system with its timer at start_time and
bleed pressure 1 reaches running on the next update, restarting its
failed engine and writing the set-running property. -/
theorem C2_engine_start_gating_witness :
    startA.request_start = startA ∧
    (startA.update 1 1).2.state = StartState.running ∧
    (∀ e, e ∈ (startA.update 1 1).2.engines → e.failed = false) ∧
    (startA.update 1 1).2.fdm_running = [1] := by
  have h := C2_engine_start_gating startA 1 1
  have hrun : (startA.update 1 1).2.state = StartState.running :=
    h.2.1.mpr (Or.inr ⟨rfl, by norm_num [startA]⟩)
  have heff := h.2.2.2.1 rfl hrun
  exact ⟨h.1 (by decide), hrun, heff.2.1, heff.2.2⟩

/-- Claim C3, amended: the master_caution value returned by a step tick
is the OR of that tick's stall, gpws, overspeed and fire warnings only;
the tick's tcas_alert is computed but never registered with the master
caution system, so it does not influence master_caution. This holds on
every tick of every run started from the freshly constructed
registry. -/
theorem C3_master_caution_amended
    (ts : List (Bool × Bool × Bool × Bool × Bool)) (s g o f t : Bool) :
    (A320IFRSim.tickMasterCaution
        (A320IFRSim.runTicksMasterCaution ts MasterCautionSystem.init)
        s g o f t).1 = (s || g || o || f) :=
  (tick_shape _ s g o f t (runTicks_shape ts _ (Or.inl rfl))).2

/-- Counterexample to C3 as stated: on a tick where only the TCAS alert
is active, the claim demands master_caution = true (the OR of the five
warning booleans), but the step aggregation returns false, because the
tcas warning is never registered. -/
theorem C3_master_caution_counterexample :
    (A320IFRSim.tickMasterCaution MasterCautionSystem.init
        false false false false true).1 = false ∧
    (false || false || false || false || true) = true :=
  ⟨rfl, rfl⟩

/-- Claim C4: a surface operability flag drops to false exactly when the
surface is commanded to move (target differs from position) while
speed_kt exceeds its overspeed limit, and once false no sequence of
set_targets and update calls ever restores it or moves the damaged
surface again. -/
theorem C4_structural_damage (m : SystemManager) (dt : ℚ) (pp : Bool)
    (speed_kt : ℚ) (pf : Bool) (cmds : List SMCmd) :
    ((m.update dt pp speed_kt pf).1.flap_operable = false ↔
      (m.flap_operable = false ∨
        (speed_kt > m.flap_overspeed_kt ∧ m.target_flap ≠ m.flap))) ∧
    ((m.update dt pp speed_kt pf).1.gear_operable = false ↔
      (m.gear_operable = false ∨
        (speed_kt > m.gear_overspeed_kt ∧ m.target_gear ≠ m.gear))) ∧
    (m.flap_operable = false →
      (m.run cmds).flap_operable = false ∧ (m.run cmds).flap = m.flap) ∧
    (m.gear_operable = false →
      (m.run cmds).gear_operable = false ∧ (m.run cmds).gear = m.gear) := by
  refine ⟨?_, ?_, (run_preserves_damage cmds m).1,
    (run_preserves_damage cmds m).2⟩ <;>
    · obtain ⟨fr, gr, sr, fl, ge, sb, tf, tg, ts, hy, fov, gov, fop, gop⟩ := m
      simp only [SystemManager.update]
      split_ifs <;> simp_all [abs_pos, sub_ne_zero]

/-- Witness for C4: a damaged system manager stays damaged and frozen
across a set_targets followed by an update. -/
theorem C4_structural_damage_witness :
    (smDamaged.run
        [SMCmd.setTargets (some 0) (some 1) (some 0),
          SMCmd.tick (1 / 50) true 0 false]).flap_operable = false ∧
    (smDamaged.run
        [SMCmd.setTargets (some 0) (some 1) (some 0),
          SMCmd.tick (1 / 50) true 0 false]).flap = smDamaged.flap ∧
    (smDamaged.run
        [SMCmd.setTargets (some 0) (some 1) (some 0),
          SMCmd.tick (1 / 50) true 0 false]).gear_operable = false := by
  have h := C4_structural_damage smDamaged (1 / 50) true 0 false
    [SMCmd.setTargets (some 0) (some 1) (some 0),
      SMCmd.tick (1 / 50) true 0 false]
  exact ⟨(h.2.2.1 rfl).1, (h.2.2.1 rfl).2, (h.2.2.2 rfl).1⟩

/-- Claim C5: with a level other than off, update arms the autobrake on
ground above arm_speed with throttle below the threshold; throttle at
or above the threshold always disarms it, as does being airborne; while
active the brake command is the level constant (low 0.3, med 0.6,
high 1.0). The hypothesis disarm_speed ≤ arm_speed holds for the
constructed system (20 vs 70). -/
theorem C5_autobrake_update (a : AutobrakeSystem) (on_ground : Bool)
    (speed_kt throttle : ℚ) (hda : a.disarm_speed ≤ a.arm_speed) :
    (a.level ≠ "off" → on_ground = true → a.arm_speed < speed_kt →
        throttle < a.throttle_threshold →
        (a.update on_ground speed_kt throttle).1 = true) ∧
    (a.throttle_threshold ≤ throttle →
        (a.update on_ground speed_kt throttle).1 = false) ∧
    (on_ground = false → (a.update on_ground speed_kt throttle).1 = false) ∧
    ((a.update on_ground speed_kt throttle).1 = true → a.level = "low" →
        (a.update on_ground speed_kt throttle).2.brakes.command = 3 / 10) ∧
    ((a.update on_ground speed_kt throttle).1 = true → a.level = "med" →
        (a.update on_ground speed_kt throttle).2.brakes.command = 6 / 10) ∧
    ((a.update on_ground speed_kt throttle).1 = true → a.level = "high" →
        (a.update on_ground speed_kt throttle).2.brakes.command = 1) := by
  rw [AutobrakeSystem.update_cases]
  refine ⟨?_, ?_, ?_, ?_, ?_, ?_⟩
  · intro hlev hg hsp ht
    have h1 : ¬ (speed_kt < a.disarm_speed) := not_lt.mpr (hda.trans hsp.le)
    have h2 : ¬ (a.throttle_threshold ≤ throttle) := not_le.mpr ht
    simp [hlev, hg, hsp, ht, h1, h2]
  · intro ht
    by_cases hoff : a.level = "off" <;> simp [hoff, ht]
  · intro hg
    by_cases hoff : a.level = "off" <;> simp [hoff, hg]
  · intro hact hlev
    simp [hlev] at hact
    have hcond : a.arm_speed < speed_kt ∨ a.active = true := by tauto
    simp [hlev, hact, hcond, AutobrakeSystem.LEVELS, BrakeSystem.set_command]
    try norm_num [min_def, max_def]
  · intro hact hlev
    simp [hlev] at hact
    have hcond : a.arm_speed < speed_kt ∨ a.active = true := by tauto
    simp [hlev, hact, hcond, AutobrakeSystem.LEVELS, BrakeSystem.set_command]
    try norm_num [min_def, max_def]
  · intro hact hlev
    simp [hlev] at hact
    have hcond : a.arm_speed < speed_kt ∨ a.active = true := by tauto
    simp [hlev, hact, hcond, AutobrakeSystem.LEVELS, BrakeSystem.set_command]
    try norm_num [min_def, max_def]

/-- Witness for C5: a med-level autobrake on ground at 80 kt with idle
throttle arms and commands 0.6 braking; at throttle 0.5 it stays
inactive; airborne it is inactive. -/
theorem C5_autobrake_update_witness :
    (autobrakeA.update true 80 0).1 = true ∧
    (autobrakeA.update true 80 (1 / 2)).1 = false ∧
    (autobrakeA.update false 80 0).1 = false ∧
    (autobrakeA.update true 80 0).2.brakes.command = 6 / 10 := by
  have h1 := C5_autobrake_update autobrakeA true 80 0 (by norm_num [autobrakeA])
  have h2 := C5_autobrake_update autobrakeA true 80 (1 / 2)
    (by norm_num [autobrakeA])
  have h3 := C5_autobrake_update autobrakeA false 80 0
    (by norm_num [autobrakeA])
  have hact : (autobrakeA.update true 80 0).1 = true :=
    h1.1 (by decide) rfl (by norm_num [autobrakeA]) (by norm_num [autobrakeA])
  exact ⟨hact, h2.2.1 (by norm_num [autobrakeA]), h3.2.2.1 rfl,
    h1.2.2.2.2.1 hact rfl⟩

/-- Claim C6: for a route with a valid index, one NavigationSystem
update never changes the route, advances the index by at most one,
advances it exactly when the computed distance to the active waypoint
is below 0.3 nm and another waypoint remains, never decreases it and
keeps it inside [0, number of waypoints). Stated for every
bearing/distance helper bd, hence for the haversine one. -/
theorem C6_waypoint_advance (bd : ℚ → ℚ → ℚ → ℚ → ℚ × ℚ)
    (nav : NavigationSystem) (lat lon : ℚ)
    (hidx : nav.index < nav.waypoints.length) :
    (nav.update bd lat lon).1.waypoints = nav.waypoints ∧
    ((nav.update bd lat lon).1.index = nav.index ∨
      (nav.update bd lat lon).1.index = nav.index + 1) ∧
    ((nav.update bd lat lon).1.index = nav.index + 1 ↔
      ((bd lat lon (nav.waypoints.getD nav.index ⟨0, 0, none⟩).lat
          (nav.waypoints.getD nav.index ⟨0, 0, none⟩).lon).2 < 3 / 10 ∧
        nav.index < nav.waypoints.length - 1)) ∧
    nav.index ≤ (nav.update bd lat lon).1.index ∧
    (nav.update bd lat lon).1.index < nav.waypoints.length := by
  simp only [NavigationSystem.update]
  split_ifs with h0 hadv
  · exfalso
    simp [List.isEmpty_iff] at h0
    rcases h0 with h | h
    · rw [h] at hidx
      simp at hidx
    · omega
  · refine ⟨rfl, Or.inr rfl, ?_, Nat.le_succ _, ?_⟩
    · simpa using hadv
    · have h2 := hadv.2
      show nav.index + 1 < nav.waypoints.length
      omega
  · refine ⟨rfl, Or.inl rfl, ?_, le_refl _, hidx⟩
    simpa using hadv

/-- Witness for C6: on the two-waypoint route navA, a distance reading
of 0.1 nm advances the index from 0 to 1. -/
theorem C6_waypoint_advance_witness :
    navA.index < navA.waypoints.length ∧
    (navA.update (fun _ _ _ _ => ((90 : ℚ), (1 : ℚ) / 10)) 37 (-122)).1.index
      = 1 := by
  have h := C6_waypoint_advance (fun _ _ _ _ => ((90 : ℚ), (1 : ℚ) / 10))
    navA 37 (-122) (by decide)
  exact ⟨by decide, h.2.2.1.mpr ⟨by norm_num, by decide⟩⟩

/-- Claim C8, amended: set_level with a level outside the LEVELS table
leaves the autobrake state entirely unchanged and silently ignores the
command (the source method is a guarded assignment that neither raises
nor returns anything, so the caller receives no failure signal);
direct_to with an index outside [0, number of waypoints) raises
IndexError with message Waypoint index out of range before any
mutation, leaving the route index unchanged. -/
theorem C8_invalid_command_rejection (a : AutobrakeSystem) (level : String)
    (fms : FlightManagementSystem) (i : ℤ)
    (hlev : AutobrakeSystem.LEVELS level = none)
    (hidx : ¬ (0 ≤ i ∧ i < fms.nav.waypoints.length)) :
    a.set_level level = a ∧
    MCDU.direct_to fms i = Except.error "Waypoint index out of range" ∧
    MCDU.direct_to_observed fms i = fms := by
  refine ⟨?_, ?_, ?_⟩
  · simp [AutobrakeSystem.set_level, hlev]
  · simp [MCDU.direct_to, hidx]
  · simp [MCDU.direct_to_observed, MCDU.direct_to, hidx]

/-- Counterexample to C8 as stated for the set_level half: the invalid
call set_level "foo" returns exactly the same state as the successful
valid call set_level "low" on the same panel, so the caller receives no
explicit failure signal of any kind. -/
theorem C8_counterexample_no_failure_signal :
    AutobrakeSystem.LEVELS "foo" = none ∧
    autobrakeB.set_level "foo" = autobrakeB ∧
    autobrakeB.set_level "foo" = autobrakeB.set_level "low" := by
  refine ⟨rfl, ?_, ?_⟩ <;> rfl

/-- Witness for C8: the unknown level "foo" is ignored on a concrete
panel, and direct_to 5 on a two-waypoint route raises with the index
untouched. -/
theorem C8_invalid_command_rejection_witness :
    autobrakeB.set_level "foo" = autobrakeB ∧
    MCDU.direct_to fmsA 5 = Except.error "Waypoint index out of range" ∧
    MCDU.direct_to_observed fmsA 5 = fmsA :=
  C8_invalid_command_rejection autobrakeB "foo" fmsA 5 rfl (by decide)

/-- Claim C10: for dt ≥ 0 the hydraulic pressure returned by
HydraulicSystem.update lies in [0, 1], and for dt ≥ 0 and demand ≥ 0
the charge returned by ElectricSystem.update lies in [0, 1], RAT
trickle charge included, from any starting state; the RAT hypothesis
asks only that its configured trickle rate is nonnegative (0.05 in the
constructor). -/
theorem C10_bounded_resources (h : HydraulicSystem) (demand dt : ℚ)
    (pump_power pump_fails : Bool)
    (e : ElectricSystem) (generator_on gen_fails : Bool) (demand2 dt2 : ℚ)
    (hdt : 0 ≤ dt) (hdt2 : 0 ≤ dt2) (hdem2 : 0 ≤ demand2)
    (hrat : ∀ r, e.rat = some r → 0 ≤ r.charge_rate) :
    (0 ≤ (h.update demand dt pump_power pump_fails).1 ∧
      (h.update demand dt pump_power pump_fails).1 ≤ 1) ∧
    (0 ≤ (e.update generator_on demand2 dt2 gen_fails).1 ∧
      (e.update generator_on demand2 dt2 gen_fails).1 ≤ 1) := by
  refine ⟨?_, ?_⟩
  · unfold HydraulicSystem.update
    split_ifs <;> exact ⟨clamp01_nonneg _, clamp01_le_one _⟩
  · set e1 := e.feed generator_on dt2 gen_fails with he1
    set e2 := e1.drain demand2 dt2 with he2
    set ga := generator_on && !e2.generator_failed with hga
    set e3 := e2.apu_policy ga with he3
    have hupd : (e.update generator_on demand2 dt2 gen_fails).1 =
        (e3.rat_stage ga dt2).charge := rfl
    rw [hupd]
    have h2c : 0 ≤ e2.charge ∧ e2.charge ≤ 1 := by
      rw [he2]
      exact ⟨clamp01_nonneg _, clamp01_le_one _⟩
    have hpol := apu_policy_charge_rat e2 ga
    have h2r : e2.rat = e.rat := by
      rw [he2, he1]
      exact (drain_rat _ _ _).trans (feed_rat _ _ _ _)
    refine rat_stage_bounds e3 ga dt2 ?_ ?_ hdt2 ?_
    · rw [he3, hpol.1]
      exact h2c.1
    · rw [he3, hpol.1]
      exact h2c.2
    · intro r hr
      refine hrat r ?_
      rw [← h2r, ← hpol.2, ← he3]
      exact hr

/-- Witness for C10: concrete hydraulic and electric systems stay in
[0, 1] over an update with dt = 0.02. -/
theorem C10_bounded_resources_witness :
    (0 ≤ (hydA.update (1 / 2) (1 / 50) true false).1 ∧
      (hydA.update (1 / 2) (1 / 50) true false).1 ≤ 1) ∧
    (0 ≤ (elecA.update true (1 / 10) (1 / 50) false).1 ∧
      (elecA.update true (1 / 10) (1 / 50) false).1 ≤ 1) := by
  refine C10_bounded_resources hydA (1 / 2) (1 / 50) true false elecA true
    false (1 / 10) (1 / 50) (by norm_num) (by norm_num) (by norm_num) ?_
  intro r hr
  have hra : r = ratA := by
    have hx : some ratA = some r := hr
    exact (Option.some.inj hx).symm
  rw [hra]
  norm_num [ratA]

end IfrSim
